import Mathlib

/-!
Verification development for the valid-time file resolver of the `atmos`
repository (`config_model_output.py`, with the static tables of `config.py`).

The Python code is shallowly embedded: strings become `List Char`, the
filesystem glob and the dataset-open call become oracle functions passed in
as parameters, exceptions become an explicit error type, and the object
attributes set by `find_valid_files` / mutated by `read_file` become an
explicit record.  Every definition is translated from the source file;
definitions whose name ends in `Spec` instead follow the wording of the
design document and exist only to be compared with the code's behaviour.
-/

/-- Python strings are modelled as lists of characters. -/
abbrev Str := List Char

/-- Shorthand turning a Lean string literal into the `List Char` model. -/
def str (s : String) : Str := s.toList

/-- Boolean test that `p` is a prefix of `s` (Python `s.startswith(p)` on the
front of a slice; used to implement substring search). -/
def startsWithB : Str → Str → Bool
  | [], _ => true
  | _ :: _, [] => false
  | a :: as, b :: bs => a = b && startsWithB as bs

/-- Boolean test that `e` is a suffix of `s` (Python `s.endswith(e)`). -/
def endsWithB (s e : Str) : Bool := startsWithB e.reverse s.reverse

/-- Python `s.rfind(sub)`: index of the last occurrence of `sub` in `s`,
`-1` when there is none («`"abc".rfind("")` = 3» behaviour included). -/
def rfind (s sub : Str) : Int :=
  match s with
  | [] => if sub = [] then 0 else -1
  | _ :: rest =>
    let r := rfind rest sub
    if 0 ≤ r then r + 1
    else if startsWithB sub s then 0 else -1

/-- Python `s.find(sub)` / `s.index(sub)`: index of the first occurrence of
`sub` in `s`, `-1` when there is none. -/
def findSub (s sub : Str) : Int :=
  match s with
  | [] => if sub = [] then 0 else -1
  | _ :: rest =>
    if startsWithB sub s then 0
    else
      let r := findSub rest sub
      if r < 0 then -1 else r + 1

/-- Python `sub in s` (substring containment). -/
def hasSub (s sub : Str) : Bool := decide (0 ≤ rfind s sub)

/-- Clamp one endpoint of a Python slice to `[0, n]`, resolving negative
indices relative to the end, as Python slicing does. -/
def clampIdx (n : Nat) (i : Int) : Nat :=
  if i < 0 then (max 0 ((n : Int) + i)).toNat else min i.toNat n

/-- Python `s[a:b]` with full Python slice semantics (clamping, negative
indices). -/
def pySlice (s : Str) (a b : Int) : Str :=
  (s.take (clampIdx s.length b)).drop (clampIdx s.length a)

/-- Python `s[a:]`. -/
def pySliceFrom (s : Str) (a : Int) : Str := pySlice s a (s.length : Int)

/-- Fuel-indexed worker for `removeAll`; the fuel is an upper bound on the
string length, consumed once per emitted or skipped character, so the
recursion is structural and kernel-reducible. -/
def removeAllFuel (sep : Str) : Nat → Str → Str
  | 0, _ => []
  | _ + 1, [] => []
  | n + 1, c :: rest =>
    if startsWithB sep (c :: rest) ∧ sep.length ≠ 0 then
      removeAllFuel sep n (List.drop (sep.length - 1) rest)
    else
      c :: removeAllFuel sep n rest

/-- Python `"".join(s.split(sep))`: delete every (leftmost, non-overlapping)
occurrence of `sep` from `s`. -/
def removeAll (sep s : Str) : Str := removeAllFuel sep s.length s

/-- Fuel-indexed worker for `replaceAll`, structured like `removeAllFuel`. -/
def replaceAllFuel (sep rep : Str) : Nat → Str → Str
  | 0, _ => []
  | _ + 1, [] => []
  | n + 1, c :: rest =>
    if startsWithB sep (c :: rest) ∧ sep.length ≠ 0 then
      rep ++ replaceAllFuel sep rep n (List.drop (sep.length - 1) rest)
    else
      c :: replaceAllFuel sep rep n rest

/-- Replace every (leftmost, non-overlapping) occurrence of `sep` in a string
by `rep`; used only to state the design document's `%Y`-normalisation. -/
def replaceAll (sep rep s : Str) : Str := replaceAllFuel sep rep s.length s

/-- The whitespace characters stripped by Python `str.strip()` (ASCII part). -/
def isPySpace (c : Char) : Bool :=
  c = ' ' || c = '\t' || c = '\n' || c = '\x0d' || c = '\x0b' || c = '\x0c'

/-- Python `s.strip()` (ASCII whitespace). -/
def pyStrip (s : Str) : Str :=
  ((s.dropWhile isPySpace).reverse.dropWhile isPySpace).reverse

/-- Python `s.lower()` (ASCII case folding, which covers every input the
repository handles). -/
def pyLower (s : Str) : Str := s.map Char.toLower

/-- Python `int(s)`: optional sign followed by at least one digit;
`none` models the `ValueError` raised otherwise. -/
def pyInt (s : Str) : Option Int :=
  let digitsVal : Str → Int := fun ds =>
    (ds.foldl (fun a c => 10 * a + (c.toNat - '0'.toNat)) 0 : Nat)
  match s with
  | '-' :: rest =>
    if rest ≠ [] ∧ rest.all Char.isDigit then some (-(digitsVal rest)) else none
  | '+' :: rest =>
    if rest ≠ [] ∧ rest.all Char.isDigit then some (digitsVal rest) else none
  | _ =>
    if s ≠ [] ∧ s.all Char.isDigit then some (digitsVal s) else none

/-- Apply `pyInt` to every string of a list; `none` models the `ValueError`
that aborts a Python list comprehension on the first unparseable entry. -/
def allInts : List Str → Option (List Int)
  | [] => some []
  | s :: rest => (pyInt s).bind fun n => (allInts rest).map (n :: ·)

/-- A parsed timestamp, as produced by `datetime.strptime`
(`config_model_output.py` lines 203, 236, 254). -/
structure PyDateTime where
  year : Nat
  month : Nat
  day : Nat
  hour : Nat
  minute : Nat
  second : Nat
deriving DecidableEq, Repr

/-- Gregorian leap-year test. -/
def isLeap (y : Nat) : Bool := (y % 4 = 0 && y % 100 ≠ 0) || y % 400 = 0

/-- Number of days of month `m` in year `y`. -/
def daysInMonth (y m : Nat) : Nat :=
  if m = 2 then (if isLeap y then 29 else 28)
  else if m = 4 ∨ m = 6 ∨ m = 9 ∨ m = 11 then 30 else 31

/-- Read exactly `w` digits from the front of `s` as a number, returning the
value and the remaining input. -/
def readFixedNat (w : Nat) (s : Str) : Option (Nat × Str) :=
  let pre := s.take w
  if pre.length = w ∧ pre.all Char.isDigit then
    some (pre.foldl (fun a c => 10 * a + (c.toNat - '0'.toNat)) 0, s.drop w)
  else none

/-- Directive-by-directive run of a strptime format over an input string.
Supports the directives appearing in `config.time_format`
(`%Y` `%m` `%d` `%H` `%M` `%S`), each as a fixed-width digit field
(4 digits for `%Y`, 2 otherwise), plus literal characters; the whole input
must be consumed. -/
def runFmt : Str → Str → PyDateTime → Option PyDateTime
  | [], [], dt => some dt
  | [], _ :: _, _ => none
  | '%' :: 'Y' :: fr, s, dt =>
    (readFixedNat 4 s).bind fun p => runFmt fr p.2 { dt with year := p.1 }
  | '%' :: 'm' :: fr, s, dt =>
    (readFixedNat 2 s).bind fun p => runFmt fr p.2 { dt with month := p.1 }
  | '%' :: 'd' :: fr, s, dt =>
    (readFixedNat 2 s).bind fun p => runFmt fr p.2 { dt with day := p.1 }
  | '%' :: 'H' :: fr, s, dt =>
    (readFixedNat 2 s).bind fun p => runFmt fr p.2 { dt with hour := p.1 }
  | '%' :: 'M' :: fr, s, dt =>
    (readFixedNat 2 s).bind fun p => runFmt fr p.2 { dt with minute := p.1 }
  | '%' :: 'S' :: fr, s, dt =>
    (readFixedNat 2 s).bind fun p => runFmt fr p.2 { dt with second := p.1 }
  | '%' :: _ :: _, _, _ => none
  | ['%'], _, _ => none
  | c :: fr, x :: s, dt => if c = x then runFmt fr s dt else none
  | _ :: _, [], _ => none

/-- Model of `datetime.strptime(s, fmt)` for the formats used by the
repository: parse with `runFmt` from Python's default date (1900-01-01),
then apply the calendar range checks `datetime` enforces; `none` models the
raised `ValueError`.  (CPython additionally accepts narrower digit fields;
all timestamps the repository handles are canonical fixed width.) -/
def strptime (s fmt : Str) : Option PyDateTime :=
  (runFmt fmt s ⟨1900, 1, 1, 0, 0, 0⟩).bind fun dt =>
    if 1 ≤ dt.month ∧ dt.month ≤ 12 ∧ 1 ≤ dt.day ∧ dt.day ≤ daysInMonth dt.year dt.month
        ∧ dt.hour ≤ 23 ∧ dt.minute ≤ 59 ∧ dt.second ≤ 59 then
      some dt
    else none

/-- Number of leap years in `[0, y)` (proleptic Gregorian). -/
def leapsBefore (y : Nat) : Nat :=
  if y = 0 then 0 else (y - 1) / 4 + (y - 1) / 400 + 1 - (y - 1) / 100

/-- Cumulative days before month `m` in a non-leap year. -/
def cumDays : Nat → Nat
  | 1 => 0 | 2 => 31 | 3 => 59 | 4 => 90 | 5 => 120 | 6 => 151
  | 7 => 181 | 8 => 212 | 9 => 243 | 10 => 273 | 11 => 304 | 12 => 334
  | _ => 0

/-- Seconds since the (proleptic) epoch of year 0; only differences of this
quantity are ever used, mirroring `(a - b).total_seconds()` on naive
`datetime` values. -/
def toSeconds (dt : PyDateTime) : Int :=
  ((86400 * (365 * dt.year + leapsBefore dt.year + cumDays dt.month
      + (if 2 < dt.month ∧ isLeap dt.year then 1 else 0) + (dt.day - 1))
    + 3600 * dt.hour + 60 * dt.minute + dt.second : Nat) : Int)

/-- `config.time_format` from `config.py`: per-model strptime pattern.
`none` covers both the `wrf-geogrid` entry (whose value is `None`) and
absent keys. -/
def time_format (m : Str) : Option Str :=
  if m = str "wrf" then some (str "%Y-%m-%d_%H:%M:%S")
  else if m = str "wrf-geogrid" then none
  else if m = str "rrfs" then some (str "%Y%m%d%H")
  else if m = str "hrrr" then some (str "%Y%m%d%H")
  else none

/-- The keys of `config.supported_models` (`config.py` lines 41-98). -/
def supported_model_names : List Str :=
  [str "template", str "wrf", str "wrf-geogrid", str "rrfs", str "hrrr"]

/-- The keys of `config.supported_formats` (`config.py` lines 99-102). -/
def supported_format_names : List Str := [str "netcdf", str "grib2"]

/-- The cleaned attributes of a `ModelOutput` instance that
`find_valid_files` reads (`config_model_output.py` lines 70-75 after
`_clean_parameter_values`). -/
structure FState where
  model_name : Str
  data_format : Str
  main_dir : Str
  sub_dir : Str
  valid_time : Str
  domain : Str
deriving DecidableEq, Repr

/-- The exceptions the embedded code can raise, one constructor per raise
site.  `ModelInputError` instances carry the line of their message:
`unsupportedModel`/`unsupportedFormat` (lines 119/125), `multipleGeogridFiles`
(lines 189 and 199), `noMatches` (line 223), `noValidForecasts` (line 310),
`singleValidNotFound` (line 331).  `valueError` covers `ValueError` from
`strptime`/`int`/`.index`, `lookupError` the `KeyError`/`TypeError` when
`config.time_format` has no usable entry, `indexError` an out-of-range
`[0]`. -/
inductive ResErr where
  | unsupportedModel
  | unsupportedFormat
  | multipleGeogridFiles
  | noMatches
  | noValidForecasts
  | singleValidNotFound
  | valueError
  | lookupError
  | indexError
deriving DecidableEq, Repr

/-- The pair of attributes set by `find_valid_files`.  In the Python code
both attributes hold list objects; at the assignment sites of lines 266-267,
283-284 and 326-327 the *same* list object is stored under both names, while
lines 184-185, 195-196 and 296-297 build two fresh one-element lists.
`aliased` records which of the two happened, so that the in-place `pop(0)`
of `read_file` can be modelled faithfully. -/
structure ResOut where
  valid_files : List Str
  unread_files : List Str
  aliased : Bool
deriving DecidableEq, Repr

/-- Search-path construction, `config_model_output.py` lines 160-169. -/
def search_path (st : FState) : Str :=
  if st.model_name = str "wrf" then
    st.main_dir ++ st.sub_dir ++ str "wrfout_" ++ st.domain ++ str "*"
  else if st.model_name = str "wrf-geogrid" then
    st.main_dir ++ str "geo_em." ++ st.domain ++ str ".nc"
  else if st.model_name = str "rrfs" then
    st.main_dir ++ st.sub_dir ++ str "dyn" ++ str "*"
  else if st.model_name = str "hrrr" then
    st.main_dir ++ st.sub_dir ++ str "*"
  else
    st.main_dir ++ st.sub_dir ++ str "*"

/-- The fallback geogrid search pattern of lines 178-179. -/
def geogridSubPath (st : FState) : Str :=
  st.main_dir ++ st.sub_dir ++ str "geo_em." ++ st.domain ++ str ".nc"

/-- The `wrf-geogrid` branch of `find_valid_files`, lines 175-200: accept a
single match from the main directory, otherwise glob the subdirectory
pattern and accept a single match; any other count raises the
«Multiple geogrid files found» `ModelInputError` (including the zero-match
fallback case, whose message then shows an empty list). -/
def geogridResolve (glob : Str → List Str) (st : FState) (fs : List Str) :
    Except ResErr ResOut :=
  match fs with
  | [] =>
    match glob (geogridSubPath st) with
    | [b] => .ok ⟨[b], [b], false⟩
    | _ => .error .multipleGeogridFiles
  | [a] => .ok ⟨[a], [a], false⟩
  | _ => .error .multipleGeogridFiles

/-- `strip_ending_characters_from_string`, lines 38-45: strip each of the
known extensions in turn if the (current) string ends with it. -/
def strip_ending_characters_from_string (s : Str) : Str :=
  let step : Str → Str → Str := fun acc e =>
    if endsWithB acc e then pySlice acc 0 (-(e.length : Int)) else acc
  step (step (step (step s (str ".nc")) (str ".ncf")) (str ".grib")) (str ".grib2")

/-- Line 214: the direct-match filter `[f for f in file_search if
self.valid_time in f]`. -/
def directMatches (fs : List Str) (vt : Str) : List Str :=
  fs.filter (fun f => hasSub f vt)

/-- Strict lexicographic (code-point) order on strings, Python string `<`. -/
def strLt : Str → Str → Bool
  | [], [] => false
  | [], _ :: _ => true
  | _ :: _, [] => false
  | a :: as, b :: bs => if a = b then strLt as bs else decide (a < b)

/-- Insert `x` into an already sorted list, before the first element not
strictly below it; together with `insertionSort` this reproduces Python's
stable ascending `sorted` for a strict total order. -/
def insertOrd (lt : α → α → Bool) (x : α) : List α → List α
  | [] => [x]
  | y :: ys => if lt y x then y :: insertOrd lt x ys else x :: y :: ys

/-- Stable ascending sort by a strict order, as Python `sorted`. -/
def insertionSortBy (lt : α → α → Bool) : List α → List α
  | [] => []
  | x :: xs => insertOrd lt x (insertionSortBy lt xs)

/-- Python `sorted` on a list of strings. -/
def sortStr (l : List Str) : List Str := insertionSortBy strLt l

/-- Python strict tuple comparison on pairs of strings, as used by
`sorted(zip(forecast_hours, all_files_matching_year))`. -/
def pairLt (p q : Str × Str) : Bool :=
  if p.1 = q.1 then strLt p.2 q.2 else strLt p.1 q.1

/-- Python `sorted` on a list of string pairs. -/
def sortPairs (l : List (Str × Str)) : List (Str × Str) := insertionSortBy pairLt l

/-- Lines 217-219: `sorted(list(set([f for f in file_search if
self.valid_time[year_index_start:4] in f])))`. -/
def yearBucket (fs : List Str) (ys : Str) : List Str :=
  sortStr ((fs.filter (fun f => hasSub f ys)).dedup)

/-- The canonical suffix of a candidate, lines 239-243: slice the path from
`time_index_start`, delete every occurrence of `base_time + "/"`, then strip
a known extension. -/
def canonSuffixOf (tis : Int) (base_time : Str) (f : Str) : Str :=
  strip_ending_characters_from_string (removeAll (base_time ++ str "/") (pySliceFrom f tis))

/-- Line 247: the text after the last `'f'` of a canonical suffix,
`i[i.rfind("f") + 1::]`. -/
def forecastTextOf (i : Str) : Str := pySliceFrom i (rfind i (str "f") + 1)

/-- Line 251: the two characters before the last `'z'` of a canonical
suffix, `i[i.rfind("z") - 2:i.rfind("z")]` (Python slice semantics, so a
`'z'` at index 1 makes the lower bound wrap to the end). -/
def initTextOf (i : Str) : Str :=
  pySlice i (rfind i (str "z") - 2) (rfind i (str "z"))

/-- Lines 247-248: `forecast_hours`, over suffixes whose last `'f'` sits at a
positive index. -/
def forecastHoursList (ffs : List Str) : List Str :=
  (ffs.filter (fun i => decide (0 < rfind i (str "f")))).map forecastTextOf

/-- Lines 251-252: `init_hours`, over suffixes whose last `'z'` sits at a
positive index. -/
def initHoursList (ffs : List Str) : List Str :=
  (ffs.filter (fun i => decide (0 < rfind i (str "z")))).map initTextOf

/-- Lines 260-299, the branch taken when the direct-match filter is
non-empty: a single direct match is accepted as-is (both attributes set to
the same list object); with several, the year bucket is reordered by the
zip-with-forecast-hours sort and re-filtered by the direct-match test; a
non-empty `init_hours` accepts all of these (same list object under both
names), otherwise only the first survives (two fresh singleton lists). -/
def strategyDirect (vt : Str) (valid_file : List Str) (fhs : List Str)
    (bucket : List Str) (ihs : List Str) : Except ResErr ResOut :=
  match valid_file with
  | [v] => .ok ⟨[v], [v], true⟩
  | _ =>
    let mvf := (sortPairs (fhs.zip bucket)).map (fun p => p.2)
    let nvf := mvf.filter (fun f => hasSub f vt)
    if ihs ≠ [] then .ok ⟨nvf, nvf, true⟩
    else
      match nvf with
      | [] => .error .indexError
      | x :: _ => .ok ⟨[x], [x], false⟩

/-- Lines 300-332, the branch taken when the direct-match filter is empty:
parse every forecast-hour text with `int` (a failure raises `ValueError`),
find the first one equal to the requested hour offset, rebuild a glob
pattern from the base-time file with that forecast length, and accept the
whole glob result (same list object under both names); no forecast-hour
match, or an empty re-glob, raises a `ModelInputError`. -/
def strategyB (glob : Str → List Str) (vhi : Int) (fhs : List Str) (btf : Str) :
    Except ResErr ResOut :=
  match allInts fhs with
  | none => .error .valueError
  | some ns =>
    match (ns.zip fhs).find? (fun p => decide (p.1 = vhi)) with
    | none => .error .noValidForecasts
    | some p =>
      let forecast_length := str "f" ++ p.2
      let nfs := pySlice btf 0 (rfind btf (str "f")) ++ forecast_length
      match glob (nfs ++ str "*") with
      | [] => .error .singleValidNotFound
      | l => .ok ⟨l, l, true⟩

/-- Lines 208-332 once the year substring is fixed: build the year bucket
(raising on emptiness), slice and parse the base time out of its first
element, derive the canonical suffixes and the forecast/init hour lists,
then dispatch on the direct-match filter. -/
def resolveWithYear (glob : Str → List Str) (st : FState) (fmt : Str)
    (vdt : PyDateTime) (fs : List Str) (ys : Str) : Except ResErr ResOut :=
  match yearBucket fs ys with
  | [] => .error .noMatches
  | btf :: rest =>
    let tis := rfind btf ys
    let base_time := pySlice btf tis (tis + (st.valid_time.length : Int))
    match strptime base_time fmt with
    | none => .error .valueError
    | some bdt =>
      let bucket := btf :: rest
      let ffs := bucket.map (canonSuffixOf tis base_time)
      let fhs := forecastHoursList ffs
      let ihs := initHoursList ffs
      match directMatches fs st.valid_time with
      | [] => strategyB glob (Int.tdiv (toSeconds vdt - toSeconds bdt) 3600) fhs btf
      | v :: vrest => strategyDirect st.valid_time (v :: vrest) fhs bucket ihs

/-- `find_valid_files`, lines 155-332: one glob of the model-specific search
path, the geogrid special case, the `strptime` of the requested valid time
(line 203, raising `ValueError` on failure; `lookupError` when the model has
no usable `config.time_format` entry), the `%Y` offset lookup of line 209,
then the year-substring pipeline. -/
def find_valid_files (glob : Str → List Str) (st : FState) : Except ResErr ResOut :=
  if st.model_name = str "wrf-geogrid" then
    geogridResolve glob st (glob (search_path st))
  else
    match time_format st.model_name with
    | none => .error .lookupError
    | some fmt =>
      match strptime st.valid_time fmt with
      | none => .error .valueError
      | some vdt =>
        let yis := findSub fmt (str "%Y")
        if yis < 0 then .error .valueError
        else resolveWithYear glob st fmt vdt (glob (search_path st))
          (pySlice st.valid_time yis 4)

/-- Outcome of `xr.open_dataset` on one path: the open either succeeds or
raises an `IOError` (the only exception class line 343/353 catches). -/
inductive OpenOutcome where
  | success
  | ioError
deriving DecidableEq, Repr

/-- The attributes of a `ModelOutput` instance touched by `read_file`:
the two file lists (with the aliasing flag of `ResOut`), and `ds`, modelled
as the path of the dataset last read. -/
structure MOState where
  data_format : Str
  valid_files : List Str
  unread_files : List Str
  aliased : Bool
  ds : Option Str
deriving DecidableEq, Repr

/-- Package a `find_valid_files` result into the object state `read_file`
operates on. -/
def afterResolve (df : Str) (r : ResOut) : MOState :=
  ⟨df, r.valid_files, r.unread_files, r.aliased, none⟩

/-- `read_file`, lines 334-354: for either supported format, open the head
of `unread_files` (an empty list raises `IndexError`, which is not an
`IOError` and escapes the handler); on success store the dataset in `ds`
and `pop(0)` the list — which, when the two attributes alias one list
object, also shortens `valid_files`; an `IOError` is caught and only
printed, leaving every attribute untouched. -/
def read_file (openO : Str → OpenOutcome) (st : MOState) : Except ResErr MOState :=
  if st.data_format = str "netcdf" ∨ st.data_format = str "grib2" then
    match st.unread_files with
    | [] => .error .indexError
    | f :: rest =>
      match openO f with
      | .success =>
        .ok { st with ds := some f, unread_files := rest,
                      valid_files := if st.aliased then st.valid_files.tail else st.valid_files }
      | .ioError => .ok st
  else .ok st

/-- The six raw constructor arguments of `ModelOutput.__init__`
(line 47); in the embedding they are typed as strings, so the `isinstance`
checks of `_raise_for_invalid_parameter_types` (lines 89-97) always pass. -/
structure RawInput where
  model_name : Str
  data_format : Str
  main_dir : Str
  sub_dir : Str
  valid_time : Str
  domain : Str
deriving DecidableEq, Repr

/-- The per-attribute transformation of `_clean_parameter_values`
(line 104): `strip()` then `lower()`. -/
def cleanStr (s : Str) : Str := pyLower (pyStrip s)

/-- `ModelOutput.__init__` (lines 47-87): type enforcement (vacuous over
string inputs), `_clean_parameter_values` (strip/lower every attribute,
then append `"/"` to `main_dir` and `"**/"` to `sub_dir` when missing), and
`_raise_for_invalid_parameter_values` (membership of the cleaned model name
and data format in the config tables). -/
def modelOutputInit (inp : RawInput) : Except ResErr FState :=
  let mn := cleanStr inp.model_name
  let df := cleanStr inp.data_format
  let md0 := cleanStr inp.main_dir
  let sd0 := cleanStr inp.sub_dir
  let vt := cleanStr inp.valid_time
  let dom := cleanStr inp.domain
  let md := if endsWithB md0 (str "/") then md0 else md0 ++ str "/"
  let sd := if endsWithB sd0 (str "**/") then sd0 else sd0 ++ str "**/"
  if mn ∈ supported_model_names then
    if df ∈ supported_format_names then
      .ok ⟨mn, df, md, sd, vt, dom⟩
    else .error .unsupportedFormat
  else .error .unsupportedModel

/-- Design-document reading of `forecastHourText` (§4.3): only the *digits*
immediately following the last `'f'`. -/
def forecastTextSpec (i : Str) : Str :=
  (pySliceFrom i (rfind i (str "f") + 1)).takeWhile Char.isDigit

/-- Design-document reading of `initHourText` (§4.3): the two characters
before the last `'z'`, *filtered to digits only*. -/
def initTextSpec (i : Str) : Str :=
  (pySlice i (rfind i (str "z") - 2) (rfind i (str "z"))).filter Char.isDigit

/-- Design-document reading of `targetHour` (§4.4 Strategy A): offset of
`%H` in the time format after normalising `%Y` to a four-character
placeholder, then the two-character slice of the requested valid time at
that offset. -/
def targetHourSpec (fmt vt : Str) : Str :=
  let k := findSub (replaceAll (str "%Y") (str "YYYY") fmt) (str "%H")
  pySlice vt k (k + 2)

/-- The base-time string the resolver slices out of the lexicographically
first year-bucket file (lines 230-235), as a function of the glob result. -/
def baseTimeOf (fs : List Str) (ys : Str) (vtLen : Nat) : Str :=
  match yearBucket fs ys with
  | [] => []
  | btf :: _ => pySlice btf (rfind btf ys) (rfind btf ys + (vtLen : Int))

/-- Decidable equality for `Except` results, so that closed runs of the
embedded functions can be settled by `decide`. -/
instance {ε α : Type} [DecidableEq ε] [DecidableEq α] : DecidableEq (Except ε α) := fun a b =>
  match a, b with
  | .ok x, .ok y =>
    if h : x = y then .isTrue (by rw [h]) else .isFalse (fun hc => h (Except.ok.inj hc))
  | .error x, .error y =>
    if h : x = y then .isTrue (by rw [h]) else .isFalse (fun hc => h (Except.error.inj hc))
  | .ok _, .error _ => .isFalse (fun hc => Except.noConfusion hc)
  | .error _, .ok _ => .isFalse (fun hc => Except.noConfusion hc)

/-- Example: an `hrrr`-style directory with two initialisation-hour files
both stamped with the same valid time (`init 04 + f02 = 06`,
`init 04 + f03 = 07`). -/
def exFa : Str := str "2023010106.t04z.f02.nc"

/-- Second file of the same directory; its init+forecast sum is 7, not the
requested hour 6. -/
def exFb : Str := str "2023010106.t04z.f03.nc"

/-- Resolution request for valid time `2023010106` over that directory. -/
def exStA : FState :=
  ⟨str "hrrr", str "netcdf", str "m/", str "**/", str "2023010106", str "d01"⟩

/-- Glob oracle returning the two files above for the `hrrr` search path. -/
def exGlobA : Str → List Str :=
  fun p => if p = str "m/**/*" then [exFa, exFb] else []

/-- Example: a `basetime/forecast` layout with two files carrying the same
forecast hour `001`. -/
def exBa : Str := str "2023010100/af001.nc"

/-- Second duplicate-forecast-hour file of the layout. -/
def exBb : Str := str "2023010100/bf001.nc"

/-- Resolution request for valid time `2023010101` (base `2023010100` plus
one hour) over that layout. -/
def exStB : FState :=
  ⟨str "hrrr", str "netcdf", str "m/", str "**/", str "2023010101", str "d01"⟩

/-- Glob oracle for the duplicate-forecast-hour layout, including the
refined pattern the Strategy-B branch re-globs. -/
def exGlobB : Str → List Str :=
  fun p =>
    if p = str "m/**/*" then [exBa, exBb]
    else if p = str "2023010100/af001*" then [exBa] else []

/-- Example: a file whose name sorts first in the year bucket but whose
sliced base-time field (`2023_junk`) is not parseable. -/
def exCa : Str := str "2023_junk"

/-- The unique file of the same directory containing the requested valid
time as a literal substring. -/
def exCb : Str := str "z2023010100.nc"

/-- Resolution request for valid time `2023010100` over that directory. -/
def exStC : FState :=
  ⟨str "hrrr", str "netcdf", str "m/", str "**/", str "2023010100", str "d01"⟩

/-- Glob oracle returning the unparseable-first-file directory. -/
def exGlobC : Str → List Str :=
  fun p => if p = str "m/**/*" then [exCa, exCb] else []

/-- A `wrf-geogrid` request used for the geogrid claims. -/
def exStG : FState :=
  ⟨str "wrf-geogrid", str "netcdf", str "g/", str "**/", str "2023010100", str "d01"⟩

theorem startsWithB_iff (p s : Str) : startsWithB p s = true ↔ p <+: s := by
  induction p generalizing s with
  | nil => simp [startsWithB]
  | cons a as ih =>
    cases s with
    | nil => simp [startsWithB]
    | cons b bs => simp [startsWithB, List.cons_prefix_cons, ih]

theorem rfind_nonneg_iff (s sub : Str) : 0 ≤ rfind s sub ↔ sub <:+: s := by
  induction s with
  | nil =>
    simp only [rfind]
    constructor
    · intro h
      by_cases hs : sub = []
      · simp [hs]
      · rw [if_neg hs] at h; omega
    · intro h
      have := List.eq_nil_of_infix_nil h
      simp [this]
  | cons c rest ih =>
    simp only [rfind]
    constructor
    · intro h
      by_cases hr : 0 ≤ rfind rest sub
      · exact (List.infix_cons_iff).mpr (Or.inr (ih.mp hr))
      · rw [if_neg hr] at h
        by_cases hp : startsWithB sub (c :: rest) = true
        · exact (List.infix_cons_iff).mpr
            (Or.inl ((startsWithB_iff sub (c :: rest)).mp hp))
        · rw [if_neg hp] at h; omega
    · intro h
      rcases (List.infix_cons_iff).mp h with hp | hi
      · by_cases hr : 0 ≤ rfind rest sub
        · rw [if_pos hr]; omega
        · rw [if_neg hr, if_pos ((startsWithB_iff sub (c :: rest)).mpr hp)]
      · have h2 := ih.mpr hi
        rw [if_pos h2]; omega

theorem hasSub_spec (s sub : Str) : hasSub s sub = true ↔ sub <:+: s := by
  simp only [hasSub, decide_eq_true_eq]
  exact rfind_nonneg_iff s sub

theorem mem_insertOrd (lt : α → α → Bool) (x a : α) (l : List α) :
    a ∈ insertOrd lt x l ↔ a = x ∨ a ∈ l := by
  induction l with
  | nil => simp [insertOrd]
  | cons y ys ih =>
    simp only [insertOrd]
    by_cases h : lt y x = true
    · rw [if_pos h]
      simp only [List.mem_cons, ih]
      tauto
    · rw [if_neg h]
      simp only [List.mem_cons]

theorem mem_insertionSortBy (lt : α → α → Bool) (a : α) (l : List α) :
    a ∈ insertionSortBy lt l ↔ a ∈ l := by
  induction l with
  | nil => simp [insertionSortBy]
  | cons x xs ih => simp [insertionSortBy, mem_insertOrd, ih]

theorem mem_yearBucket {f : Str} {fs : List Str} {ys : Str} :
    f ∈ yearBucket fs ys ↔ f ∈ fs ∧ hasSub f ys = true := by
  simp [yearBucket, sortStr, mem_insertionSortBy, List.mem_dedup, List.mem_filter]

theorem yearBucket_ne_nil {f : Str} {fs : List Str} {ys : Str}
    (hmem : f ∈ fs) (hsub : hasSub f ys = true) : yearBucket fs ys ≠ [] := by
  intro hc
  have : f ∈ yearBucket fs ys := mem_yearBucket.mpr ⟨hmem, hsub⟩
  rw [hc] at this
  exact absurd this (List.not_mem_nil f)

theorem time_format_cases (m fmt : Str) (h : time_format m = some fmt) :
    fmt = str "%Y-%m-%d_%H:%M:%S" ∨ fmt = str "%Y%m%d%H" := by
  unfold time_format at h
  split_ifs at h <;> simp_all

theorem runFmt_Y (fr s : Str) (dt : PyDateTime) :
    runFmt ('%' :: 'Y' :: fr) s dt =
      (readFixedNat 4 s).bind (fun p => runFmt fr p.2 { dt with year := p.1 }) := by
  simp only [runFmt]

theorem strptime_Y_length (vt fr : Str) (d : PyDateTime)
    (h : strptime vt ('%' :: 'Y' :: fr) = some d) : 4 ≤ vt.length := by
  unfold strptime at h
  rw [runFmt_Y] at h
  cases hrf : readFixedNat 4 vt with
  | none => rw [hrf] at h; simp at h
  | some p =>
    have h4 : (vt.take 4).length = 4 := by
      simp only [readFixedNat] at hrf
      split_ifs at hrf with hc
      exact hc.1
    by_cases hlen : 4 ≤ vt.length
    · exact hlen
    · exfalso
      rw [List.take_of_length_le (by omega)] at h4
      omega

theorem take_min_self (s : Str) (b : Nat) : s.take (min b s.length) = s.take b := by
  by_cases h : b ≤ s.length
  · rw [Nat.min_eq_left h]
  · rw [Nat.min_eq_right (by omega), List.take_length, List.take_of_length_le (by omega)]

theorem drop_min_self (t : Str) (a n : Nat) (hn : t.length ≤ n) :
    t.drop (min a n) = t.drop a := by
  by_cases h : a ≤ n
  · rw [Nat.min_eq_left h]
  · rw [Nat.min_eq_right (by omega), List.drop_eq_nil_of_le hn,
      List.drop_eq_nil_of_le (by omega)]

theorem pySlice_natCast (s : Str) (a b : Nat) :
    pySlice s (a : Int) (b : Int) = (s.take b).drop a := by
  unfold pySlice clampIdx
  rw [if_neg (by omega), if_neg (by omega), Int.toNat_ofNat, Int.toNat_ofNat,
    take_min_self]
  refine drop_min_self _ a s.length ?hlen
  rw [List.length_take]
  exact inf_le_right

theorem pySliceFrom_natCast (s : Str) (a : Nat) :
    pySliceFrom s (a : Int) = s.drop a := by
  unfold pySliceFrom
  rw [pySlice_natCast, List.take_of_length_le (le_refl _)]

theorem rfind_single_neg {c : Char} {s : Str} (h : c ∉ s) : rfind s [c] = -1 := by
  induction s with
  | nil => simp [rfind]
  | cons a rest ih =>
    have hca : c ≠ a := fun he => h (he ▸ List.mem_cons_self a rest)
    have hcr : c ∉ rest := fun hm => h (List.mem_cons_of_mem a hm)
    simp only [rfind, ih hcr]
    rw [if_neg (by omega)]
    have : startsWithB [c] (a :: rest) = false := by
      simp [startsWithB, hca]
    rw [this]
    simp

theorem rfind_append_singleton {c : Char} (u v : Str) (h : c ∉ v) :
    rfind (u ++ c :: v) [c] = (u.length : Int) := by
  induction u with
  | nil =>
    show rfind (c :: v) [c] = _
    simp only [rfind, rfind_single_neg h]
    rw [if_neg (by omega), if_pos (by simp [startsWithB])]
    simp
  | cons a u ih =>
    show rfind (a :: (u ++ c :: v)) [c] = _
    simp only [rfind]
    rw [ih, if_pos (by omega)]
    simp

theorem time_format_geogrid : time_format (str "wrf-geogrid") = none := by decide

theorem findSub_Y_zero (fmt : Str)
    (h : fmt = str "%Y-%m-%d_%H:%M:%S" ∨ fmt = str "%Y%m%d%H") :
    findSub fmt (str "%Y") = 0 := by
  rcases h with h | h <;> subst h <;> decide

theorem model_not_geogrid {m fmt : Str} (h : time_format m = some fmt) :
    ¬ m = str "wrf-geogrid" := by
  intro hm
  rw [hm, time_format_geogrid] at h
  exact Option.noConfusion h

theorem fmt_starts_Y {m fmt : Str} (h : time_format m = some fmt) :
    ∃ fr, fmt = '%' :: 'Y' :: fr := by
  rcases time_format_cases m fmt h with h1 | h1 <;> subst h1
  · exact ⟨str "-%m-%d_%H:%M:%S", rfl⟩
  · exact ⟨str "%m%d%H", rfl⟩

theorem find_valid_files_eq (glob : Str → List Str) (st : FState) (fmt : Str)
    (vdt : PyDateTime)
    (hfmt : time_format st.model_name = some fmt)
    (hvt : strptime st.valid_time fmt = some vdt) :
    find_valid_files glob st =
      resolveWithYear glob st fmt vdt (glob (search_path st))
        (pySlice st.valid_time 0 4) := by
  have hY : findSub fmt (str "%Y") = 0 :=
    findSub_Y_zero fmt (time_format_cases _ _ hfmt)
  have hne := model_not_geogrid hfmt
  unfold find_valid_files
  rw [if_neg hne]
  simp only [hfmt, hvt, hY]
  norm_num

/-- C1 (corrected): when the direct-match filter yields more than one
candidate and `init_hours` is non-empty, the code does *not* compare
`init + forecast` with the requested hour; it returns exactly the
direct-match candidates (those containing the requested valid time as a
substring), in the order produced by sorting the
(forecast-hour-string, year-bucket-file) pairs, every one of them drawn
from the year bucket. -/
theorem c1_theorem (vt v1 v2 : Str) (vs fhs bucket ihs : List Str)
    (hih : ihs ≠ []) :
    strategyDirect vt (v1 :: v2 :: vs) fhs bucket ihs =
      .ok ⟨((sortPairs (fhs.zip bucket)).map (fun p => p.2)).filter (fun f => hasSub f vt),
           ((sortPairs (fhs.zip bucket)).map (fun p => p.2)).filter (fun f => hasSub f vt),
           true⟩
    ∧ ∀ f ∈ ((sortPairs (fhs.zip bucket)).map (fun p => p.2)).filter (fun f => hasSub f vt),
        hasSub f vt = true ∧ f ∈ bucket := by
  constructor
  · unfold strategyDirect
    rw [if_pos hih]
  · intro f hf
    have h1 := List.mem_filter.mp hf
    refine ⟨h1.2, ?_⟩
    obtain ⟨p, hp, hpe⟩ := List.mem_map.mp h1.1
    obtain ⟨a, b⟩ := p
    have hp2 : (a, b) ∈ fhs.zip bucket := (mem_insertionSortBy pairLt _ _).mp hp
    have hb := (List.of_mem_zip hp2).2
    rw [← hpe]
    exact hb

/-- Witness for `c1_theorem` at the concrete two-file directory. -/
theorem c1_witness :
    strategyDirect (str "2023010106") [exFa, exFb] [str "02", str "03"]
        [exFa, exFb] [str "04", str "04"] =
      .ok ⟨((sortPairs ([str "02", str "03"].zip [exFa, exFb])).map (fun p => p.2)).filter
             (fun f => hasSub f (str "2023010106")),
           ((sortPairs ([str "02", str "03"].zip [exFa, exFb])).map (fun p => p.2)).filter
             (fun f => hasSub f (str "2023010106")),
           true⟩
    ∧ ∀ f ∈ ((sortPairs ([str "02", str "03"].zip [exFa, exFb])).map (fun p => p.2)).filter
          (fun f => hasSub f (str "2023010106")),
        hasSub f (str "2023010106") = true ∧ f ∈ [exFa, exFb] :=
  c1_theorem (str "2023010106") exFa exFb [] [str "02", str "03"]
    [exFa, exFb] [str "04", str "04"] (by decide)

/-- C1 counterexample: for the two-file directory of `exGlobA` the
direct-match filter yields two candidates and every candidate carries the
initialisation hour `04`, yet resolution selects *both* files although the
second one has `init + forecast = 4 + 3 = 7`, not the requested hour 6. -/
theorem c1_counterexample :
    directMatches (exGlobA (search_path exStA)) exStA.valid_time = [exFa, exFb]
    ∧ initHoursList ((yearBucket (exGlobA (search_path exStA))
        (pySlice exStA.valid_time 0 4)).map (canonSuffixOf 0 (str "2023010106")))
        = [str "04", str "04"]
    ∧ find_valid_files exGlobA exStA = .ok ⟨[exFa, exFb], [exFa, exFb], true⟩
    ∧ targetHourSpec (str "%Y%m%d%H") exStA.valid_time = str "06"
    ∧ pyInt (str "06") = some 6
    ∧ pyInt (initTextOf (canonSuffixOf 0 (str "2023010106") exFb)) = some 4
    ∧ pyInt (forecastTextOf (canonSuffixOf 0 (str "2023010106") exFb)) = some 3
    ∧ ¬ ((4 : Int) + 3 = 6) :=
  ⟨rfl, rfl, rfl, rfl, rfl, rfl, rfl, by decide⟩

/-- C2 (corrected): in the Strategy-B branch zero forecast-hour matches do
raise the `ModelInputError` of line 310, but with one *or more* matches the
code silently uses the first matching forecast hour (`time_match.index(True)`)
and never raises an ambiguity error; the result is then determined by the
re-glob of the refined pattern alone. -/
theorem c2_theorem (glob : Str → List Str) (vhi : Int) (fhs : List Str)
    (btf : Str) (ns : List Int) (hns : allInts fhs = some ns) :
    ((ns.zip fhs).find? (fun p => decide (p.1 = vhi)) = none →
      strategyB glob vhi fhs btf = .error .noValidForecasts)
    ∧ (∀ n fh, (ns.zip fhs).find? (fun p => decide (p.1 = vhi)) = some (n, fh) →
        strategyB glob vhi fhs btf =
          match glob (pySlice btf 0 (rfind btf (str "f")) ++ (str "f" ++ fh) ++ str "*") with
          | [] => .error .singleValidNotFound
          | l => .ok ⟨l, l, true⟩) := by
  constructor
  · intro hf
    unfold strategyB
    rw [hns]
    simp only [hf]
  · intro n fh hf
    unfold strategyB
    rw [hns]
    simp only [hf]

/-- Witness for `c2_theorem` at the duplicate-forecast-hour layout. -/
theorem c2_witness :
    ((([1, 1] : List Int).zip [str "001", str "001"]).find?
        (fun p => decide (p.1 = (1 : Int))) = none →
      strategyB exGlobB 1 [str "001", str "001"] exBa = .error .noValidForecasts)
    ∧ (∀ n fh, (([1, 1] : List Int).zip [str "001", str "001"]).find?
          (fun p => decide (p.1 = (1 : Int))) = some (n, fh) →
        strategyB exGlobB 1 [str "001", str "001"] exBa =
          match exGlobB (pySlice exBa 0 (rfind exBa (str "f")) ++ (str "f" ++ fh) ++ str "*") with
          | [] => .error .singleValidNotFound
          | l => .ok ⟨l, l, true⟩) :=
  c2_theorem exGlobB 1 [str "001", str "001"] exBa [1, 1] (by rfl)

/-- C2 counterexample: in the duplicate-forecast-hour layout both candidates
match the requested one-hour offset (`allInts` gives `[1, 1]` and the offset
is 1), yet resolution succeeds with the first candidate's re-glob instead of
raising an ambiguity error. -/
theorem c2_counterexample :
    allInts (forecastHoursList ((yearBucket (exGlobB (search_path exStB))
        (pySlice exStB.valid_time 0 4)).map (canonSuffixOf 0 (str "2023010100"))))
      = some [1, 1]
    ∧ Int.tdiv (toSeconds ⟨2023, 1, 1, 1, 0, 0⟩ - toSeconds ⟨2023, 1, 1, 0, 0, 0⟩) 3600 = 1
    ∧ find_valid_files exGlobB exStB = .ok ⟨[exBa], [exBa], true⟩
    ∧ ∀ e : ResErr, find_valid_files exGlobB exStB ≠ .error e := by
  refine ⟨rfl, rfl, rfl, ?_⟩
  intro e hc
  rw [show find_valid_files exGlobB exStB = .ok ⟨[exBa], [exBa], true⟩ from rfl] at hc
  exact Except.noConfusion hc

/-- C3 (corrected): a unique direct match is returned as the sole entry of
both attributes — but only *provided* the earlier heuristics do not raise:
the model must have a time format, the requested valid time must parse
(line 203), and the base-time slice of the first year-bucket file must parse
(line 236); these steps run before the direct match is accepted, so they are
not skipped. -/
theorem c3_theorem (glob : Str → List Str) (st : FState) (fmt : Str)
    (vdt bdt : PyDateTime) (f : Str)
    (hfmt : time_format st.model_name = some fmt)
    (hvt : strptime st.valid_time fmt = some vdt)
    (hdm : directMatches (glob (search_path st)) st.valid_time = [f])
    (hbase : strptime (baseTimeOf (glob (search_path st)) (pySlice st.valid_time 0 4)
        st.valid_time.length) fmt = some bdt) :
    find_valid_files glob st = .ok ⟨[f], [f], true⟩ := by
  have hfd : f ∈ directMatches (glob (search_path st)) st.valid_time := by
    rw [hdm]
    exact List.mem_cons_self f []
  have hfmem := List.mem_filter.mp hfd
  have hys : hasSub f (pySlice st.valid_time 0 4) = true := by
    have h4 : pySlice st.valid_time 0 4 = st.valid_time.take 4 := by
      simpa using pySlice_natCast st.valid_time 0 4
    have h1 : (pySlice st.valid_time 0 4) <:+: st.valid_time := by
      rw [h4]
      exact (List.take_prefix 4 _).isInfix
    have h2 : st.valid_time <:+: f := (hasSub_spec _ _).mp hfmem.2
    exact (hasSub_spec _ _).mpr (h1.trans h2)
  have hbne := yearBucket_ne_nil hfmem.1 hys
  rcases hbx : yearBucket (glob (search_path st)) (pySlice st.valid_time 0 4) with
    _ | ⟨btf, rest⟩
  · exact absurd hbx hbne
  · rw [find_valid_files_eq glob st fmt vdt hfmt hvt]
    unfold resolveWithYear
    rw [hbx]
    unfold baseTimeOf at hbase
    rw [hbx] at hbase
    simp only [hbase, hdm]
    rfl

/-- Witness for `c3_theorem` at a one-file directory. -/
theorem c3_witness :
    find_valid_files (fun p => if p = str "m/**/*" then [str "2023010100.nc"] else []) exStC
      = .ok ⟨[str "2023010100.nc"], [str "2023010100.nc"], true⟩ :=
  c3_theorem (fun p => if p = str "m/**/*" then [str "2023010100.nc"] else []) exStC
    (str "%Y%m%d%H") ⟨2023, 1, 1, 0, 0, 0⟩ ⟨2023, 1, 1, 0, 0, 0⟩
    (str "2023010100.nc") (by rfl) (by rfl) (by rfl) (by rfl)

/-- C3 counterexample: exactly one globbed file (`z2023010100.nc`) contains
the requested valid time, yet resolution raises an unhandled `ValueError`
from the base-time parse of `2023_junk` instead of returning that file —
the other heuristics are *not* skipped. -/
theorem c3_counterexample :
    directMatches (exGlobC (search_path exStC)) exStC.valid_time = [exCb]
    ∧ find_valid_files exGlobC exStC = .error .valueError
    ∧ ∀ r : ResOut, find_valid_files exGlobC exStC ≠ .ok r := by
  refine ⟨rfl, rfl, ?_⟩
  intro r hc
  rw [show find_valid_files exGlobC exStC = .error .valueError from rfl] at hc
  exact Except.noConfusion hc

/-- C4 (code_bug): at lines 266-267, 283-284 and 326-327 *one* list object
is stored under both attribute names, so the `pop(0)` of `read_file` also
shortens `valid_files`: for the two-file Strategy-A resolution, after one
successful consume `unread_files` has length 1 as specified, but
`valid_files` has shrunk to `[exFb]` instead of staying `[exFa, exFb]`. -/
theorem c4_theorem :
    find_valid_files exGlobA exStA = .ok ⟨[exFa, exFb], [exFa, exFb], true⟩
    ∧ read_file (fun _ => .success)
        (afterResolve (str "netcdf") ⟨[exFa, exFb], [exFa, exFb], true⟩)
      = .ok ⟨str "netcdf", [exFb], [exFb], true, some exFa⟩
    ∧ ([exFb] : List Str) ≠ [exFa, exFb] :=
  ⟨rfl, rfl, by decide⟩

/-- C5 (confirmed): for every request whose model has a time format and
whose valid time parses, the `%Y` token sits at offset 0, the extracted year
substring is 4 characters long, the year bucket is a subset of the glob
result whose every element contains that substring, and an empty year bucket
makes `find_valid_files` raise the `ModelInputError` of line 223. -/
theorem c5_theorem (glob : Str → List Str) (st : FState) (fmt : Str)
    (vdt : PyDateTime)
    (hfmt : time_format st.model_name = some fmt)
    (hvt : strptime st.valid_time fmt = some vdt) :
    findSub fmt (str "%Y") = 0
    ∧ (pySlice st.valid_time 0 4).length = 4
    ∧ (∀ f ∈ yearBucket (glob (search_path st)) (pySlice st.valid_time 0 4),
        f ∈ glob (search_path st) ∧ hasSub f (pySlice st.valid_time 0 4) = true)
    ∧ (yearBucket (glob (search_path st)) (pySlice st.valid_time 0 4) = [] →
        find_valid_files glob st = .error .noMatches) := by
  have hY := findSub_Y_zero fmt (time_format_cases _ _ hfmt)
  obtain ⟨fr, hfr⟩ := fmt_starts_Y hfmt
  have hlen : 4 ≤ st.valid_time.length := strptime_Y_length _ fr vdt (hfr ▸ hvt)
  have h4 : pySlice st.valid_time 0 4 = st.valid_time.take 4 := by
    simpa using pySlice_natCast st.valid_time 0 4
  refine ⟨hY, ?_, ?_, ?_⟩
  · rw [h4, List.length_take]
    exact Nat.min_eq_left hlen
  · intro f hf
    exact mem_yearBucket.mp hf
  · intro hb
    rw [find_valid_files_eq glob st fmt vdt hfmt hvt]
    unfold resolveWithYear
    rw [hb]

/-- Witness for `c5_theorem` at a concrete empty directory. -/
theorem c5_witness :
    findSub (str "%Y%m%d%H") (str "%Y") = 0
    ∧ (pySlice exStA.valid_time 0 4).length = 4
    ∧ (∀ f ∈ yearBucket ((fun _ => ([] : List Str)) (search_path exStA))
          (pySlice exStA.valid_time 0 4),
        f ∈ (fun _ => ([] : List Str)) (search_path exStA)
          ∧ hasSub f (pySlice exStA.valid_time 0 4) = true)
    ∧ (yearBucket ((fun _ => ([] : List Str)) (search_path exStA))
          (pySlice exStA.valid_time 0 4) = [] →
        find_valid_files (fun _ => []) exStA = .error .noMatches) :=
  c5_theorem (fun _ => []) exStA (str "%Y%m%d%H") ⟨2023, 1, 1, 6, 0, 0⟩
    (by rfl) (by rfl)

/-- C6 (corrected): writing the canonical suffix as `u ++ 'f' :: v` with no
later `'f'`, the extracted forecast-hour text is the *entire* remainder `v`
(digits or not), and writing it as `u2 ++ 'z' :: v2` with no later `'z'` and
the `'z'` at index ≥ 2, the extracted init-hour text is the raw last two
characters of `u2` — no digit filtering is performed in either case. -/
theorem c6_theorem (i u v u2 v2 : Str)
    (hf : i = u ++ 'f' :: v) (hfv : 'f' ∉ v) (_hu : u ≠ [])
    (hz : i = u2 ++ 'z' :: v2) (hzv : 'z' ∉ v2) (hu2 : 2 ≤ u2.length) :
    forecastTextOf i = v ∧ initTextOf i = u2.drop (u2.length - 2) := by
  have hstrf : str "f" = ['f'] := rfl
  have hstrz : str "z" = ['z'] := rfl
  have hrf : rfind i (str "f") = (u.length : Int) := by
    rw [hstrf, hf]
    exact rfind_append_singleton u v hfv
  have hrz : rfind i (str "z") = (u2.length : Int) := by
    rw [hstrz, hz]
    exact rfind_append_singleton u2 v2 hzv
  constructor
  · unfold forecastTextOf
    rw [hrf]
    have hc : (u.length : Int) + 1 = ((u.length + 1 : Nat) : Int) := by push_cast; ring
    rw [hc, pySliceFrom_natCast, hf]
    exact List.drop_append 1
  · unfold initTextOf
    rw [hrz]
    have hc : (u2.length : Int) - 2 = ((u2.length - 2 : Nat) : Int) := by omega
    rw [hc, pySlice_natCast, hz, List.take_left]

/-- Witness for `c6_theorem` at the suffix `t04z.f06`. -/
theorem c6_witness :
    forecastTextOf (str "t04z.f06") = str "06"
    ∧ initTextOf (str "t04z.f06") = (str "t04").drop ((str "t04").length - 2) :=
  c6_theorem (str "t04z.f06") (str "t04z.") (str "06") (str "t04") (str ".f06")
    (by decide) (by decide) (by decide) (by decide) (by decide) (by decide)

/-- C6 counterexample: the code keeps the non-digit tail after the last `'f'`
(`af06x` gives `06x`, not the digits `06`) and keeps non-digit characters
before the last `'z'` (`ta_z05` gives `a_`, while digit filtering would give
the empty string). -/
theorem c6_counterexample :
    forecastTextOf (str "af06x") = str "06x"
    ∧ forecastTextSpec (str "af06x") = str "06"
    ∧ forecastTextOf (str "af06x") ≠ forecastTextSpec (str "af06x")
    ∧ initTextOf (str "ta_z05") = str "a_"
    ∧ initTextSpec (str "ta_z05") = []
    ∧ initTextOf (str "ta_z05") ≠ initTextSpec (str "ta_z05") :=
  ⟨rfl, rfl, by decide, rfl, rfl, by decide⟩

/-- C7 (corrected): for `wrf-geogrid` a unique match (in the main directory,
or in the subdirectory search when the main glob is empty) is accepted, and
two or more matches raise the «Multiple geogrid files» error — but the same
error is *also* raised when the subdirectory fallback matches zero files, so
the error is not raised exactly on «more than one match». -/
theorem c7_theorem (glob : Str → List Str) (st : FState)
    (h : st.model_name = str "wrf-geogrid") :
    (∀ a, glob (search_path st) = [a] →
      find_valid_files glob st = .ok ⟨[a], [a], false⟩)
    ∧ (∀ b, glob (search_path st) = [] → glob (geogridSubPath st) = [b] →
        find_valid_files glob st = .ok ⟨[b], [b], false⟩)
    ∧ (∀ x y l, glob (search_path st) = x :: y :: l →
        find_valid_files glob st = .error .multipleGeogridFiles)
    ∧ (glob (search_path st) = [] → glob (geogridSubPath st) = [] →
        find_valid_files glob st = .error .multipleGeogridFiles)
    ∧ (∀ x y l, glob (search_path st) = [] → glob (geogridSubPath st) = x :: y :: l →
        find_valid_files glob st = .error .multipleGeogridFiles) := by
  have hu : find_valid_files glob st = geogridResolve glob st (glob (search_path st)) := by
    unfold find_valid_files
    rw [if_pos h]
  refine ⟨?_, ?_, ?_, ?_, ?_⟩
  · intro a ha
    rw [hu, ha]
    rfl
  · intro b h0 hb
    rw [hu, h0]
    unfold geogridResolve
    rw [hb]
  · intro x y l hm
    rw [hu, hm]
    rfl
  · intro h0 hs
    rw [hu, h0]
    unfold geogridResolve
    rw [hs]
  · intro x y l h0 hs
    rw [hu, h0]
    unfold geogridResolve
    rw [hs]

/-- Witness for `c7_theorem`: a single geogrid file in the main directory is
accepted. -/
theorem c7_witness :
    find_valid_files
        (fun p => if p = str "g/geo_em.d01.nc" then [str "g/geo_em.d01.nc"] else []) exStG
      = .ok ⟨[str "g/geo_em.d01.nc"], [str "g/geo_em.d01.nc"], false⟩ :=
  (c7_theorem (fun p => if p = str "g/geo_em.d01.nc" then [str "g/geo_em.d01.nc"] else [])
    exStG rfl).1 (str "g/geo_em.d01.nc") (by rfl)

/-- C7 counterexample: with *zero* files matching anywhere, resolution still
raises the «Multiple geogrid files» error, so the error is not raised
exactly when more than one file matches. -/
theorem c7_counterexample :
    (∀ p : Str, (fun _ : Str => ([] : List Str)) p = [])
    ∧ find_valid_files (fun _ : Str => []) exStG = .error .multipleGeogridFiles :=
  ⟨fun _ => rfl, rfl⟩

/-- C8 (confirmed): when opening the head of `unread_files` raises an
`IOError`, `read_file` catches it (only printing a message) and returns with
the object state unchanged: `unread_files` keeps its head and `ds` keeps its
previous value. -/
theorem c8_theorem (openO : Str → OpenOutcome) (st : MOState) (f : Str)
    (rest : List Str)
    (hdf : st.data_format = str "netcdf" ∨ st.data_format = str "grib2")
    (hur : st.unread_files = f :: rest)
    (hio : openO f = .ioError) :
    read_file openO st = .ok st := by
  unfold read_file
  rw [if_pos hdf, hur]
  simp only [hio]

/-- Witness for `c8_theorem` at a one-file state whose open always fails. -/
theorem c8_witness :
    read_file (fun _ : Str => OpenOutcome.ioError)
        ⟨str "netcdf", [exFa], [exFa], true, none⟩
      = .ok ⟨str "netcdf", [exFa], [exFa], true, none⟩ :=
  c8_theorem (fun _ : Str => OpenOutcome.ioError)
    ⟨str "netcdf", [exFa], [exFa], true, none⟩
    exFa [] (Or.inl rfl) rfl rfl

/-- C9 (confirmed): a successful `ModelOutput` construction strips and
lowercases all six string inputs before the supported-model and
supported-format value checks (which are performed on the cleaned names),
and the directory inputs additionally receive their `"/"` and `"**/"`
endings; the stored attributes are exactly these cleaned values, so any
uppercase in them is silently changed before the search path or the
requested time string is ever built. -/
theorem c9_theorem (inp : RawInput) (st : FState)
    (h : modelOutputInit inp = .ok st) :
    st.model_name = cleanStr inp.model_name
    ∧ st.data_format = cleanStr inp.data_format
    ∧ st.main_dir = (if endsWithB (cleanStr inp.main_dir) (str "/") then
        cleanStr inp.main_dir else cleanStr inp.main_dir ++ str "/")
    ∧ st.sub_dir = (if endsWithB (cleanStr inp.sub_dir) (str "**/") then
        cleanStr inp.sub_dir else cleanStr inp.sub_dir ++ str "**/")
    ∧ st.valid_time = cleanStr inp.valid_time
    ∧ st.domain = cleanStr inp.domain
    ∧ cleanStr inp.model_name ∈ supported_model_names
    ∧ cleanStr inp.data_format ∈ supported_format_names := by
  simp only [modelOutputInit] at h
  by_cases h1 : cleanStr inp.model_name ∈ supported_model_names
  · by_cases h2 : cleanStr inp.data_format ∈ supported_format_names
    · rw [if_pos h1, if_pos h2] at h
      have he := Except.ok.inj h
      subst he
      exact ⟨rfl, rfl, rfl, rfl, rfl, rfl, h1, h2⟩
    · rw [if_pos h1, if_neg h2] at h
      exact absurd h (by simp)
  · rw [if_neg h1] at h
    exact absurd h (by simp)

/-- Witness for `c9_theorem`: padded mixed-case inputs are accepted and
cleaned. -/
theorem c9_witness :
    (str "wrf" : Str) = cleanStr (str "  WRF ")
    ∧ (str "netcdf" : Str) = cleanStr (str "NetCDF")
    ∧ (str "/data/" : Str) = (if endsWithB (cleanStr (str "/Data")) (str "/") then
        cleanStr (str "/Data") else cleanStr (str "/Data") ++ str "/")
    ∧ (str "sub**/" : Str) = (if endsWithB (cleanStr (str "Sub")) (str "**/") then
        cleanStr (str "Sub") else cleanStr (str "Sub") ++ str "**/")
    ∧ (str "2023-01-01_06:00:00" : Str) = cleanStr (str "2023-01-01_06:00:00")
    ∧ (str "d01" : Str) = cleanStr (str "D01")
    ∧ cleanStr (str "  WRF ") ∈ supported_model_names
    ∧ cleanStr (str "NetCDF") ∈ supported_format_names :=
  c9_theorem
    ⟨str "  WRF ", str "NetCDF", str "/Data", str "Sub",
      str "2023-01-01_06:00:00", str "D01"⟩
    ⟨str "wrf", str "netcdf", str "/data/", str "sub**/",
      str "2023-01-01_06:00:00", str "d01"⟩
    (by rfl)

/-- C10 (confirmed): with a non-empty year bucket, whenever the fixed-width
slice of the lexicographically first year-bucket file at the last occurrence
of the year substring (of the length of the requested valid time) does not
parse under the model's time format, `find_valid_files` raises an unhandled
`ValueError` — an error outside the `ModelInputError` taxonomy — before any
result is produced. -/
theorem c10_theorem (glob : Str → List Str) (st : FState) (fmt : Str)
    (vdt : PyDateTime) (btf : Str) (rest : List Str)
    (hfmt : time_format st.model_name = some fmt)
    (hvt : strptime st.valid_time fmt = some vdt)
    (hb : yearBucket (glob (search_path st)) (pySlice st.valid_time 0 4) = btf :: rest)
    (hbase : strptime (pySlice btf (rfind btf (pySlice st.valid_time 0 4))
        (rfind btf (pySlice st.valid_time 0 4) + (st.valid_time.length : Int)))
        fmt = none) :
    find_valid_files glob st = .error .valueError := by
  rw [find_valid_files_eq glob st fmt vdt hfmt hvt]
  unfold resolveWithYear
  rw [hb]
  simp only [hbase]

/-- Witness for `c10_theorem` at the `2023_junk` directory. -/
theorem c10_witness : find_valid_files exGlobC exStC = .error .valueError :=
  c10_theorem exGlobC exStC (str "%Y%m%d%H") ⟨2023, 1, 1, 0, 0, 0⟩
    exCa [exCb] (by rfl) (by rfl) (by rfl) (by rfl)
